import Mathlib

/-!
Shallow embedding of `wasm-mini` (`src/wasm-mini/src/main.cpp`), a CLI front
end that drives the WasmEdge engine through a parse / validate / instantiate
pipeline.

The external WasmEdge engine is modelled as an oracle (`Env`) fixing, for one
invocation, the outcome of every engine call the program can make: whether
each context creation returns a non-null pointer, the `WasmEdge_Result` of
each fallible operation, and whether the parse call stores a (possibly
partial) module handle in its output parameter.  The filesystem check made by
`validateFile` is likewise part of the oracle (`Env.fileExists`).

A program run is embedded as a `Run`: the process exit code, the list of
lines written to standard output and to standard error, and a trace of
resource events (context-creation attempts, successful acquisitions,
releases performed by the RAII deleters, and engine operation calls).
Releases are emitted where the C++ `unique_ptr` destructors fire: at every
return point, in reverse declaration order, skipping null handles.
-/

namespace WasmMini

/-- Outcome of a fallible WasmEdge engine call: the `WasmEdge_Result` value,
exposed through `WasmEdge_ResultOK`, `WasmEdge_ResultGetCode` and
`WasmEdge_ResultGetMessage` (the message pointer may be null). -/
structure WasmResult where
  ok : Bool
  code : Nat
  message : Option String
deriving DecidableEq, Repr

/-- Oracle for one program invocation: the outcome of every engine call and
of the local file check.  `parseHandle` records whether the parse call stores
a non-null module handle in its output parameter (the engine may allocate a
partial handle even when parsing fails). -/
structure Env where
  engineVersion : String
  parserCreate : Bool
  parseResult : WasmResult
  parseHandle : Bool
  validatorCreate : Bool
  validateResult : WasmResult
  vmCreate : Bool
  vmLoadResult : WasmResult
  vmValidateResult : WasmResult
  vmInstantiateResult : WasmResult
  fileExists : Bool
deriving Repr

/-- Kinds of engine-owned handles managed by the RAII wrappers
(`ParserPtr`, `ASTModulePtr`, `ValidatorPtr`, `VMPtr`). -/
inductive HandleKind
  | parser
  | astModule
  | validator
  | vm
deriving DecidableEq, Repr

/-- Engine operations the program can invoke. -/
inductive EngineOp
  | parse
  | validatorValidate
  | vmLoad
  | vmValidate
  | vmInstantiate
deriving DecidableEq, Repr

/-- Resource and engine events of one invocation, in program order. -/
inductive Ev
  | tryAcquire (k : HandleKind)
  | acquired (k : HandleKind)
  | released (k : HandleKind)
  | call (op : EngineOp)
deriving DecidableEq, Repr

/-- Observable outcome of one program run. -/
structure Run where
  exitCode : Nat
  stdout : List String
  stderr : List String
  events : List Ev
deriving Repr

/-! Output helpers, translated from the C++ print helpers.  Each helper
returns the list of lines it writes. -/

/-- Lines of `printUsage` (written to standard output). -/
def usageLines : List String :=
  ["Usage: wasm-mini [options] <command> <file.wasm>",
   "",
   "A mini CLI tool mirroring WasmEdge CLI sub-commands.",
   "",
   "Commands:",
   "  parse        Parse a WebAssembly module",
   "  validate     Validate a WebAssembly module",
   "  instantiate  Instantiate a WebAssembly module",
   "",
   "Options:",
   "  -h, --help     Show this help message",
   "  -v, --version  Show version information",
   "  --verbose      Enable verbose output",
   "",
   "Examples:",
   "  wasm-mini parse example.wasm",
   "  wasm-mini validate example.wasm",
   "  wasm-mini --verbose instantiate example.wasm"]

/-- Lines of `printVersion` (standard output). -/
def versionLines (env : Env) : List String :=
  ["wasm-mini version 0.1.0",
   "WasmEdge version: " ++ env.engineVersion]

/-- Lines of `printCliError` (standard error): the message and the blank
line produced by the trailing double newline. -/
def printCliErrorLines (message : String) : List String :=
  ["Error: " ++ message, ""]

/-- Lines of `printWasmEdgeError` (standard error).  A null engine message
is rendered as the fixed placeholder `Unknown error`. -/
def printWasmEdgeErrorLines (command filename status : String)
    (result : WasmResult) : List String :=
  ["[" ++ command ++ "]",
   "File   : " ++ filename,
   "Status : " ++ status,
   "Error  : [" ++ toString result.code ++ "] " ++
     (match result.message with
      | some m => m
      | none => "Unknown error")]

/-- Lines of `printContextError` (standard error), used when a WasmEdge
context creation returns null: no engine code or message is available. -/
def printContextErrorLines (command filename contextName : String) :
    List String :=
  ["[" ++ command ++ "]",
   "File   : " ++ filename,
   "Status : FAILED",
   "Error  : Failed to create " ++ contextName]

/-- Lines of `printSuccess` (standard output). -/
def printSuccessLines (command filename status : String) : List String :=
  ["[" ++ command ++ "]",
   "File   : " ++ filename,
   "Status : " ++ status]

/-- Lines of `printVerbose` (standard output): one `[VERBOSE]`-prefixed line
when the verbose flag is set, nothing otherwise. -/
def printVerboseLines (verbose : Bool) (message : String) : List String :=
  if verbose then ["[VERBOSE] " ++ message] else []

/-- Translation of `hasWasmExtension`: the path has at least five characters
and ends in `.wasm`. -/
def hasWasmExtension (filepath : String) : Bool :=
  decide (5 ≤ filepath.length) &&
    (filepath.drop (filepath.length - 5) == ".wasm")

/-- Translation of `validateFile`: returns whether the file may be processed
together with the lines it writes to standard error (the not-found error, or
the extension warning). -/
def validateFileRun (env : Env) (filepath : String) : Bool × List String :=
  if env.fileExists = false then
    (false, ["Error: File not found: " ++ filepath])
  else if hasWasmExtension filepath = false then
    (true, ["Warning: File does not have .wasm extension: " ++ filepath])
  else
    (true, [])

/-- Translation of `cmdParse`.  Pipeline: create parser context, parse the
file, take ownership of the produced module handle immediately, report. -/
def cmdParse (env : Env) (verbose : Bool) (filename : String) : Run :=
  let out1 := printVerboseLines verbose
                ("WasmEdge version: " ++ env.engineVersion) ++
              printVerboseLines verbose ("Processing file: " ++ filename) ++
              printVerboseLines verbose "Creating parser context..."
  if env.parserCreate = false then
    { exitCode := 2,
      stdout := out1,
      stderr := printContextErrorLines "PARSE" filename "parser context",
      events := [Ev.tryAcquire HandleKind.parser] }
  else
    let out2 := out1 ++ printVerboseLines verbose "Parsing WebAssembly module..."
    let evAcq := [Ev.tryAcquire HandleKind.parser,
                  Ev.acquired HandleKind.parser,
                  Ev.call EngineOp.parse] ++
                 (if env.parseHandle then [Ev.acquired HandleKind.astModule] else [])
    let evRel := (if env.parseHandle then [Ev.released HandleKind.astModule] else []) ++
                 [Ev.released HandleKind.parser]
    if env.parseResult.ok = false then
      { exitCode := 2,
        stdout := out2,
        stderr := printWasmEdgeErrorLines "PARSE" filename "FAILED" env.parseResult,
        events := evAcq ++ evRel }
    else
      { exitCode := 0,
        stdout := out2 ++ printVerboseLines verbose "Parse completed successfully." ++
                  printSuccessLines "PARSE" filename "SUCCESS",
        stderr := [],
        events := evAcq ++ evRel }

/-- Translation of `cmdValidate`.  Pipeline: create parser context, parse,
create validator context, validate the AST module, report. -/
def cmdValidate (env : Env) (verbose : Bool) (filename : String) : Run :=
  let out1 := printVerboseLines verbose
                ("WasmEdge version: " ++ env.engineVersion) ++
              printVerboseLines verbose ("Processing file: " ++ filename) ++
              printVerboseLines verbose "Creating parser context..."
  if env.parserCreate = false then
    { exitCode := 2,
      stdout := out1,
      stderr := printContextErrorLines "VALIDATE" filename "parser context",
      events := [Ev.tryAcquire HandleKind.parser] }
  else
    let out2 := out1 ++ printVerboseLines verbose "Parsing WebAssembly module..."
    let evParse := [Ev.tryAcquire HandleKind.parser,
                    Ev.acquired HandleKind.parser,
                    Ev.call EngineOp.parse] ++
                   (if env.parseHandle then [Ev.acquired HandleKind.astModule] else [])
    let relPM := (if env.parseHandle then [Ev.released HandleKind.astModule] else []) ++
                 [Ev.released HandleKind.parser]
    if env.parseResult.ok = false then
      { exitCode := 2,
        stdout := out2,
        stderr := printWasmEdgeErrorLines "VALIDATE" filename
                    "FAILED (Parse Error)" env.parseResult,
        events := evParse ++ relPM }
    else
      let out3 := out2 ++ printVerboseLines verbose "Creating validator context..."
      if env.validatorCreate = false then
        { exitCode := 2,
          stdout := out3,
          stderr := printContextErrorLines "VALIDATE" filename "validator context",
          events := evParse ++ [Ev.tryAcquire HandleKind.validator] ++ relPM }
      else
        let out4 := out3 ++ printVerboseLines verbose "Validating WebAssembly module..."
        let evVal := [Ev.tryAcquire HandleKind.validator,
                      Ev.acquired HandleKind.validator,
                      Ev.call EngineOp.validatorValidate]
        let relAll := [Ev.released HandleKind.validator] ++ relPM
        if env.validateResult.ok = false then
          { exitCode := 2,
            stdout := out4,
            stderr := printWasmEdgeErrorLines "VALIDATE" filename
                        "INVALID" env.validateResult,
            events := evParse ++ evVal ++ relAll }
        else
          { exitCode := 0,
            stdout := out4 ++
                      printVerboseLines verbose "Validation completed successfully." ++
                      printSuccessLines "VALIDATE" filename "VALID",
            stderr := [],
            events := evParse ++ evVal ++ relAll }

/-- Translation of `cmdInstantiate`.  Pipeline: create VM context, load the
file into the VM, validate, instantiate, report.  No guest function is ever
invoked. -/
def cmdInstantiate (env : Env) (verbose : Bool) (filename : String) : Run :=
  let out1 := printVerboseLines verbose
                ("WasmEdge version: " ++ env.engineVersion) ++
              printVerboseLines verbose ("Processing file: " ++ filename) ++
              printVerboseLines verbose "Creating VM context..."
  if env.vmCreate = false then
    { exitCode := 2,
      stdout := out1,
      stderr := printContextErrorLines "INSTANTIATE" filename "VM context",
      events := [Ev.tryAcquire HandleKind.vm] }
  else
    let evVm := [Ev.tryAcquire HandleKind.vm, Ev.acquired HandleKind.vm]
    let relVm := [Ev.released HandleKind.vm]
    let out2 := out1 ++ printVerboseLines verbose "Loading WebAssembly module..."
    if env.vmLoadResult.ok = false then
      { exitCode := 2,
        stdout := out2,
        stderr := printWasmEdgeErrorLines "INSTANTIATE" filename
                    "FAILED (Load Error)" env.vmLoadResult,
        events := evVm ++ [Ev.call EngineOp.vmLoad] ++ relVm }
    else
      let out3 := out2 ++ printVerboseLines verbose "Validating loaded module..."
      if env.vmValidateResult.ok = false then
        { exitCode := 2,
          stdout := out3,
          stderr := printWasmEdgeErrorLines "INSTANTIATE" filename
                      "FAILED (Validation Error)" env.vmValidateResult,
          events := evVm ++ [Ev.call EngineOp.vmLoad, Ev.call EngineOp.vmValidate] ++ relVm }
      else
        let out4 := out3 ++ printVerboseLines verbose "Instantiating module..."
        if env.vmInstantiateResult.ok = false then
          { exitCode := 2,
            stdout := out4,
            stderr := printWasmEdgeErrorLines "INSTANTIATE" filename
                        "FAILED (Instantiation Error)" env.vmInstantiateResult,
            events := evVm ++ [Ev.call EngineOp.vmLoad, Ev.call EngineOp.vmValidate,
                               Ev.call EngineOp.vmInstantiate] ++ relVm }
        else
          { exitCode := 0,
            stdout := out4 ++
                      printVerboseLines verbose "Instantiation completed successfully." ++
                      printSuccessLines "INSTANTIATE" filename "READY",
            stderr := [],
            events := evVm ++ [Ev.call EngineOp.vmLoad, Ev.call EngineOp.vmValidate,
                               Ev.call EngineOp.vmInstantiate] ++ relVm }

/-- Run with a CLI/usage error: error message to standard error, usage text
to standard output, exit code 1, no engine activity. -/
def cliErrorRun (message : String) : Run :=
  { exitCode := 1,
    stdout := usageLines,
    stderr := printCliErrorLines message,
    events := [] }

/-- Routing of a recognised position in `main` after the option loop: the
command word, the remaining arguments, the file check, and the dispatch to
the sub-command handlers. -/
def dispatchCommand (env : Env) (verbose : Bool) (command : String)
    (rest : List String) : Run :=
  if command != "parse" && command != "validate" && command != "instantiate" then
    cliErrorRun ("Unknown command \x27" ++ command ++ "\x27.")
  else
    match rest with
    | [] => cliErrorRun ("Missing file argument for \x27" ++ command ++ "\x27 command.")
    | filename :: _ =>
      let fv := validateFileRun env filename
      if fv.1 = false then
        { exitCode := 1, stdout := [], stderr := fv.2, events := [] }
      else
        let r :=
          if command == "parse" then cmdParse env verbose filename
          else if command == "validate" then cmdValidate env verbose filename
          else cmdInstantiate env verbose filename
        { exitCode := r.exitCode,
          stdout := printVerboseLines verbose "File validation passed." ++ r.stdout,
          stderr := fv.2 ++ r.stderr,
          events := r.events }

/-- Translation of the option loop of `main`: options (`-h`, `--help`, `-v`,
`--version`, `--verbose`) are consumed from the front, then the command word
is dispatched; an empty remainder is a missing command. -/
def mainArgsLoop (env : Env) : Bool → List String → Run
  | _, [] => cliErrorRun "No command specified."
  | verbose, arg :: rest =>
    if arg == "-h" || arg == "--help" then
      { exitCode := 0, stdout := usageLines, stderr := [], events := [] }
    else if arg == "-v" || arg == "--version" then
      { exitCode := 0, stdout := versionLines env, stderr := [], events := [] }
    else if arg == "--verbose" then
      mainArgsLoop env true rest
    else
      dispatchCommand env verbose arg rest

/-- Translation of `main`: `args` is `argv` without the program name.  The
`argc < 2` check coincides with the empty case of the option loop (both
print the same error and usage text). -/
def mainRun (env : Env) (args : List String) : Run :=
  mainArgsLoop env false args

/-! Derived notions used by the statements: status tokens, verbose-line
detection, and projections of the event trace. -/

/-- Status tokens the program uses for failure records (§4.5 of the spec),
as they appear in the source literals. -/
def failureStatusTokens : List String :=
  ["FAILED", "FAILED (Parse Error)", "FAILED (Load Error)",
   "FAILED (Validation Error)", "FAILED (Instantiation Error)"]

/-- Whether an output line was produced by `printVerbose`: it carries the
`[VERBOSE] ` tag as a prefix. -/
def isVerboseLine (l : String) : Bool :=
  ("[VERBOSE] ".data).isPrefixOf l.data

/-- Output with the `[VERBOSE]`-tagged lines removed. -/
def stripVerbose (out : List String) : List String :=
  out.filter (fun l => !isVerboseLine l)

/-- Kinds of the handles successfully acquired during a run, in order. -/
def acquiredKinds (evs : List Ev) : List HandleKind :=
  evs.filterMap (fun e =>
    match e with
    | Ev.acquired k => some k
    | _ => none)

/-- Kinds of the handles released during a run, in order. -/
def releasedKinds (evs : List Ev) : List HandleKind :=
  evs.filterMap (fun e =>
    match e with
    | Ev.released k => some k
    | _ => none)

/-- Number of occurrences of an event in a trace. -/
def countEv (x : Ev) : List Ev → Nat
  | [] => 0
  | e :: es => (if e = x then 1 else 0) + countEv x es

/-! Concrete environments used to instantiate the theorems. -/

/-- Engine result of a successful call. -/
def okRes : WasmResult := { ok := true, code := 0, message := none }

/-- Engine result of a failed call carrying a code and a message. -/
def failRes : WasmResult := { ok := false, code := 2, message := some "loading failed" }

/-- Engine result of a failed call whose message pointer is null. -/
def failResNoMsg : WasmResult := { ok := false, code := 5, message := none }

/-- Environment in which every engine call succeeds and the file exists. -/
def envAllOk : Env :=
  { engineVersion := "0.14.0",
    parserCreate := true, parseResult := okRes, parseHandle := true,
    validatorCreate := true, validateResult := okRes,
    vmCreate := true, vmLoadResult := okRes, vmValidateResult := okRes,
    vmInstantiateResult := okRes, fileExists := true }

/-- Environment in which structural parsing and VM loading fail (the
parse call still produces a partial module handle). -/
def envParseFail : Env :=
  { envAllOk with parseResult := failRes, vmLoadResult := failRes }

/-- Environment in which parsing succeeds but semantic validation fails. -/
def envValidateFail : Env :=
  { envAllOk with validateResult := failRes, vmValidateResult := failRes }

/-- Environment in which the engine refuses to create the parser and VM
contexts. -/
def envCtxFail : Env :=
  { envAllOk with parserCreate := false, vmCreate := false }

/-- Environment in which the engine refuses to create the validator
context. -/
def envValidatorCtxFail : Env :=
  { envAllOk with validatorCreate := false }

/-- Environment in which the input file does not exist. -/
def envNoFile : Env :=
  { envAllOk with fileExists := false }

/-- Environment in which structural parsing fails with a null message. -/
def envParseFailNoMsg : Env :=
  { envAllOk with parseResult := failResNoMsg }

/-- Environment in which semantic validation fails with a null message. -/
def envValidateFailNoMsg : Env :=
  { envAllOk with validateResult := failResNoMsg }

/-- Environment in which the VM load fails with a null message. -/
def envLoadFailNoMsg : Env :=
  { envAllOk with vmLoadResult := failResNoMsg }

/-- Environment in which the VM validate call fails with a null message. -/
def envVmValidateFailNoMsg : Env :=
  { envAllOk with vmValidateResult := failResNoMsg }

/-- Environment in which VM instantiation fails with a null message. -/
def envInstantiateFailNoMsg : Env :=
  { envAllOk with vmInstantiateResult := failResNoMsg }

/-! General-purpose helper lemmas. -/

/-- Suffixes are preserved by prepending on the left. -/
lemma suffix_append_left {α : Type} (l₁ l₂ l₃ : List α) (h : l₁ <:+ l₃) :
    l₁ <:+ l₂ ++ l₃ :=
  h.trans (List.suffix_append l₂ l₃)

/-- Head character of a string concatenation, from the left operand. -/
lemma data_head?_append (s t : String) (c : Char) (h : s.data.head? = some c) :
    (s ++ t).data.head? = some c := by
  rw [String.data_append]
  cases hs : s.data with
  | nil => rw [hs] at h; cases h
  | cons a as =>
    rw [hs] at h
    simp at h
    simp [hs, h]

/-- Strings beginning with different characters are different. -/
lemma string_ne_of_head_ne (s t : String) (c d : Char)
    (hs : s.data.head? = some c) (ht : t.data.head? = some d) (hne : c ≠ d) :
    s ≠ t := by
  intro h
  rw [h, ht] at hs
  exact hne (Option.some.inj hs).symm

/-- The status line `Status : INVALID` differs from every file line. -/
lemma status_invalid_ne_file_line (f : String) :
    "Status : INVALID" ≠ "File   : " ++ f :=
  string_ne_of_head_ne "Status : INVALID" ("File   : " ++ f) 'S' 'F' rfl
    (data_head?_append "File   : " f 'F' rfl) (by decide)

/-- The status line `Status : INVALID` differs from every error line. -/
lemma status_invalid_ne_error_line (n : Nat) (m : String) :
    "Status : INVALID" ≠ "Error  : [" ++ toString n ++ "] " ++ m :=
  string_ne_of_head_ne "Status : INVALID" ("Error  : [" ++ toString n ++ "] " ++ m)
    'S' 'E' rfl
    (data_head?_append _ m 'E' (data_head?_append _ "] " 'E'
      (data_head?_append "Error  : [" (toString n) 'E' rfl))) (by decide)

/-- C1: for every input whose engine operations all succeed, the parse
command reports `SUCCESS`, the validate command reports `VALID`, and the
instantiate command reports `READY`; each writes the success record to
standard output (nothing to standard error) and returns exit code 0. -/
theorem success_paths_report_success (env : Env) (verbose : Bool) (f : String)
    (hpc : env.parserCreate = true) (hpr : env.parseResult.ok = true)
    (hvc : env.validatorCreate = true) (hvr : env.validateResult.ok = true)
    (hvm : env.vmCreate = true) (hld : env.vmLoadResult.ok = true)
    (hvv : env.vmValidateResult.ok = true) (hvi : env.vmInstantiateResult.ok = true) :
    ((cmdParse env verbose f).exitCode = 0 ∧
     printSuccessLines "PARSE" f "SUCCESS" <:+ (cmdParse env verbose f).stdout ∧
     (cmdParse env verbose f).stderr = []) ∧
    ((cmdValidate env verbose f).exitCode = 0 ∧
     printSuccessLines "VALIDATE" f "VALID" <:+ (cmdValidate env verbose f).stdout ∧
     (cmdValidate env verbose f).stderr = []) ∧
    ((cmdInstantiate env verbose f).exitCode = 0 ∧
     printSuccessLines "INSTANTIATE" f "READY" <:+ (cmdInstantiate env verbose f).stdout ∧
     (cmdInstantiate env verbose f).stderr = []) := by
  refine ⟨⟨?_, ?_, ?_⟩, ⟨?_, ?_, ?_⟩, ⟨?_, ?_, ?_⟩⟩ <;>
    simp [cmdParse, cmdValidate, cmdInstantiate, hpc, hpr, hvc, hvr, hvm, hld, hvv, hvi] <;>
    repeat first
      | exact List.suffix_refl _
      | exact List.suffix_append _ _
      | apply suffix_append_left

/-- C1 witness: the three success records at a concrete all-ok environment. -/
theorem success_paths_report_success_witness :
    ((cmdParse envAllOk false "good.wasm").exitCode = 0 ∧
     printSuccessLines "PARSE" "good.wasm" "SUCCESS" <:+
       (cmdParse envAllOk false "good.wasm").stdout ∧
     (cmdParse envAllOk false "good.wasm").stderr = []) ∧
    ((cmdValidate envAllOk false "good.wasm").exitCode = 0 ∧
     printSuccessLines "VALIDATE" "good.wasm" "VALID" <:+
       (cmdValidate envAllOk false "good.wasm").stdout ∧
     (cmdValidate envAllOk false "good.wasm").stderr = []) ∧
    ((cmdInstantiate envAllOk false "good.wasm").exitCode = 0 ∧
     printSuccessLines "INSTANTIATE" "good.wasm" "READY" <:+
       (cmdInstantiate envAllOk false "good.wasm").stdout ∧
     (cmdInstantiate envAllOk false "good.wasm").stderr = []) :=
  success_paths_report_success envAllOk false "good.wasm"
    rfl rfl rfl rfl rfl rfl rfl rfl

/-- C2: when the structural parse (resp. the VM load) returns a non-ok
result, the validate command reports status `FAILED (Parse Error)` — and in
particular no `Status : INVALID` line appears — while the instantiate
command reports `FAILED (Load Error)`; both return exit code 2. -/
theorem parse_failure_reported_failed (env : Env) (verbose : Bool) (f : String)
    (hpc : env.parserCreate = true) (hpr : env.parseResult.ok = false)
    (hvm : env.vmCreate = true) (hld : env.vmLoadResult.ok = false) :
    ((cmdValidate env verbose f).exitCode = 2 ∧
     (cmdValidate env verbose f).stderr =
       printWasmEdgeErrorLines "VALIDATE" f "FAILED (Parse Error)" env.parseResult ∧
     "Status : INVALID" ∉ (cmdValidate env verbose f).stderr) ∧
    ((cmdInstantiate env verbose f).exitCode = 2 ∧
     (cmdInstantiate env verbose f).stderr =
       printWasmEdgeErrorLines "INSTANTIATE" f "FAILED (Load Error)" env.vmLoadResult ∧
     "Status : INVALID" ∉ (cmdInstantiate env verbose f).stderr) := by
  refine ⟨⟨?_, ?_, ?_⟩, ⟨?_, ?_, ?_⟩⟩ <;>
    simp [cmdValidate, cmdInstantiate, printWasmEdgeErrorLines, hpc, hpr, hvm, hld]
  · refine ⟨status_invalid_ne_file_line f, ?_⟩
    cases hm : env.parseResult.message with
    | none =>
      simpa [hm] using status_invalid_ne_error_line env.parseResult.code "Unknown error"
    | some m =>
      simpa [hm] using status_invalid_ne_error_line env.parseResult.code m
  · refine ⟨status_invalid_ne_file_line f, ?_⟩
    cases hm : env.vmLoadResult.message with
    | none =>
      simpa [hm] using status_invalid_ne_error_line env.vmLoadResult.code "Unknown error"
    | some m =>
      simpa [hm] using status_invalid_ne_error_line env.vmLoadResult.code m

/-- C2 witness: concrete run in which parsing and VM loading fail. -/
theorem parse_failure_reported_failed_witness :
    ((cmdValidate envParseFail false "bad.wasm").exitCode = 2 ∧
     (cmdValidate envParseFail false "bad.wasm").stderr =
       printWasmEdgeErrorLines "VALIDATE" "bad.wasm" "FAILED (Parse Error)"
         envParseFail.parseResult ∧
     "Status : INVALID" ∉ (cmdValidate envParseFail false "bad.wasm").stderr) ∧
    ((cmdInstantiate envParseFail false "bad.wasm").exitCode = 2 ∧
     (cmdInstantiate envParseFail false "bad.wasm").stderr =
       printWasmEdgeErrorLines "INSTANTIATE" "bad.wasm" "FAILED (Load Error)"
         envParseFail.vmLoadResult ∧
     "Status : INVALID" ∉ (cmdInstantiate envParseFail false "bad.wasm").stderr) :=
  parse_failure_reported_failed envParseFail false "bad.wasm" rfl rfl rfl rfl

/-- C3: when parsing succeeds but semantic validation fails, the validate
command reports status `INVALID` — a token distinct from every `FAILED`
token — and the instantiate command reports `FAILED (Validation Error)`;
both return exit code 2. -/
theorem semantic_failure_reported_invalid (env : Env) (verbose : Bool) (f : String)
    (hpc : env.parserCreate = true) (hpr : env.parseResult.ok = true)
    (hvc : env.validatorCreate = true) (hvr : env.validateResult.ok = false)
    (hvm : env.vmCreate = true) (hld : env.vmLoadResult.ok = true)
    (hvv : env.vmValidateResult.ok = false) :
    ((cmdValidate env verbose f).exitCode = 2 ∧
     (cmdValidate env verbose f).stderr =
       printWasmEdgeErrorLines "VALIDATE" f "INVALID" env.validateResult ∧
     "INVALID" ∉ failureStatusTokens) ∧
    ((cmdInstantiate env verbose f).exitCode = 2 ∧
     (cmdInstantiate env verbose f).stderr =
       printWasmEdgeErrorLines "INSTANTIATE" f "FAILED (Validation Error)"
         env.vmValidateResult) := by
  refine ⟨⟨?_, ?_, by decide⟩, ⟨?_, ?_⟩⟩ <;>
    simp [cmdValidate, cmdInstantiate, hpc, hpr, hvc, hvr, hvm, hld, hvv]

/-- C3 witness: concrete run in which semantic validation fails. -/
theorem semantic_failure_reported_invalid_witness :
    ((cmdValidate envValidateFail false "bad.wasm").exitCode = 2 ∧
     (cmdValidate envValidateFail false "bad.wasm").stderr =
       printWasmEdgeErrorLines "VALIDATE" "bad.wasm" "INVALID"
         envValidateFail.validateResult ∧
     "INVALID" ∉ failureStatusTokens) ∧
    ((cmdInstantiate envValidateFail false "bad.wasm").exitCode = 2 ∧
     (cmdInstantiate envValidateFail false "bad.wasm").stderr =
       printWasmEdgeErrorLines "INSTANTIATE" "bad.wasm" "FAILED (Validation Error)"
         envValidateFail.vmValidateResult) :=
  semantic_failure_reported_invalid envValidateFail false "bad.wasm"
    rfl rfl rfl rfl rfl rfl rfl

/-- C5: within one invocation, validator-context acquisition is never
attempted once the parse operation has returned a non-ok result, and the
VM's validate call is never attempted once the VM's load call has returned
a non-ok result. -/
theorem no_later_stage_after_failure (env : Env) (verbose : Bool) (f : String) :
    (env.parseResult.ok = false →
      Ev.tryAcquire HandleKind.validator ∉ (cmdValidate env verbose f).events) ∧
    (env.vmLoadResult.ok = false →
      Ev.call EngineOp.vmValidate ∉ (cmdInstantiate env verbose f).events) := by
  obtain ⟨ver, pc, ⟨pok, pcode, pmsg⟩, ph, vc, vr, vmc, ⟨lok, lcode, lmsg⟩, vvr, vir, fe⟩ := env
  constructor
  · intro h
    simp only [WasmResult.ok] at h
    subst h
    cases pc <;> cases ph <;> simp [cmdValidate]
  · intro h
    simp only [WasmResult.ok] at h
    subst h
    cases vmc <;> simp [cmdInstantiate]

/-- C5 witness: concrete runs in which the parse and load stages fail. -/
theorem no_later_stage_after_failure_witness :
    Ev.tryAcquire HandleKind.validator ∉ (cmdValidate envParseFail false "bad.wasm").events ∧
    Ev.call EngineOp.vmValidate ∉ (cmdInstantiate envParseFail false "bad.wasm").events :=
  ⟨(no_later_stage_after_failure envParseFail false "bad.wasm").1 rfl,
   (no_later_stage_after_failure envParseFail false "bad.wasm").2 rfl⟩

/-- C6: whenever the engine refuses to allocate a context (parser,
validator, or VM creation returns null), the command reports the
context-creation failure record — status `FAILED` and a description of
which context failed, with no engine error code or message — and returns
exit code 2. -/
theorem context_creation_failure_reporting (env : Env) (verbose : Bool) (f : String) :
    (env.parserCreate = false →
      (cmdParse env verbose f).exitCode = 2 ∧
      (cmdParse env verbose f).stderr =
        printContextErrorLines "PARSE" f "parser context" ∧
      (cmdValidate env verbose f).exitCode = 2 ∧
      (cmdValidate env verbose f).stderr =
        printContextErrorLines "VALIDATE" f "parser context") ∧
    (env.parserCreate = true → env.parseResult.ok = true →
     env.validatorCreate = false →
      (cmdValidate env verbose f).exitCode = 2 ∧
      (cmdValidate env verbose f).stderr =
        printContextErrorLines "VALIDATE" f "validator context") ∧
    (env.vmCreate = false →
      (cmdInstantiate env verbose f).exitCode = 2 ∧
      (cmdInstantiate env verbose f).stderr =
        printContextErrorLines "INSTANTIATE" f "VM context") := by
  refine ⟨fun hpc => ?_, fun hpc hpr hvc => ?_, fun hvm => ?_⟩
  · simp [cmdParse, cmdValidate, hpc]
  · simp [cmdValidate, hpc, hpr, hvc]
  · simp [cmdInstantiate, hvm]

/-- C6 witness: concrete context-creation failures for the parser and VM
contexts and for the validator context. -/
theorem context_creation_failure_reporting_witness :
    ((cmdParse envCtxFail false "f.wasm").exitCode = 2 ∧
     (cmdParse envCtxFail false "f.wasm").stderr =
       printContextErrorLines "PARSE" "f.wasm" "parser context" ∧
     (cmdValidate envCtxFail false "f.wasm").exitCode = 2 ∧
     (cmdValidate envCtxFail false "f.wasm").stderr =
       printContextErrorLines "VALIDATE" "f.wasm" "parser context") ∧
    ((cmdValidate envValidatorCtxFail false "f.wasm").exitCode = 2 ∧
     (cmdValidate envValidatorCtxFail false "f.wasm").stderr =
       printContextErrorLines "VALIDATE" "f.wasm" "validator context") ∧
    ((cmdInstantiate envCtxFail false "f.wasm").exitCode = 2 ∧
     (cmdInstantiate envCtxFail false "f.wasm").stderr =
       printContextErrorLines "INSTANTIATE" "f.wasm" "VM context") :=
  ⟨(context_creation_failure_reporting envCtxFail false "f.wasm").1 rfl,
   (context_creation_failure_reporting envValidatorCtxFail false "f.wasm").2.1 rfl rfl rfl,
   (context_creation_failure_reporting envCtxFail false "f.wasm").2.2 rfl⟩

/-- C7: in every invocation and for every handle kind, the number of
successful acquisitions equals the number of releases; in particular the
module handle produced by the parse call is owned immediately, so it is
released even when the parse call itself reports failure. -/
theorem acquire_release_balanced (env : Env) (verbose : Bool) (f : String) :
    (∀ k : HandleKind,
      countEv (Ev.acquired k) (cmdParse env verbose f).events =
        countEv (Ev.released k) (cmdParse env verbose f).events ∧
      countEv (Ev.acquired k) (cmdValidate env verbose f).events =
        countEv (Ev.released k) (cmdValidate env verbose f).events ∧
      countEv (Ev.acquired k) (cmdInstantiate env verbose f).events =
        countEv (Ev.released k) (cmdInstantiate env verbose f).events) ∧
    (env.parserCreate = true → env.parseHandle = true →
      Ev.released HandleKind.astModule ∈ (cmdParse env verbose f).events ∧
      Ev.released HandleKind.astModule ∈ (cmdValidate env verbose f).events) := by
  obtain ⟨ver, pc, ⟨pok, pcode, pmsg⟩, ph, vc, ⟨vok, vcode, vmsg⟩, vmc,
          ⟨lok, lcode, lmsg⟩, ⟨vvok, vvcode, vvmsg⟩, ⟨viok, vicode, vimsg⟩, fe⟩ := env
  constructor
  · intro k
    refine ⟨?_, ?_, ?_⟩
    · cases pc <;> cases pok <;> cases ph <;> cases k <;> simp [cmdParse, countEv]
    · cases pc <;> cases pok <;> cases ph <;> cases vc <;> cases vok <;> cases k <;>
        simp [cmdValidate, countEv]
    · cases vmc <;> cases lok <;> cases vvok <;> cases viok <;> cases k <;>
        simp [cmdInstantiate, countEv]
  · intro hpc hph
    simp only at hpc hph
    subst hpc hph
    constructor
    · cases pok <;> simp [cmdParse]
    · cases pok <;> cases vc <;> cases vok <;> simp [cmdValidate]

/-- C7 witness: the balance at a concrete environment in which parsing
fails but still produces a partial module handle, which is released. -/
theorem acquire_release_balanced_witness :
    (countEv (Ev.acquired HandleKind.astModule)
        (cmdParse envParseFail false "bad.wasm").events =
      countEv (Ev.released HandleKind.astModule)
        (cmdParse envParseFail false "bad.wasm").events) ∧
    Ev.released HandleKind.astModule ∈ (cmdParse envParseFail false "bad.wasm").events ∧
    Ev.released HandleKind.astModule ∈ (cmdValidate envParseFail false "bad.wasm").events :=
  ⟨((acquire_release_balanced envParseFail false "bad.wasm").1 HandleKind.astModule).1,
   ((acquire_release_balanced envParseFail false "bad.wasm").2 rfl rfl).1,
   ((acquire_release_balanced envParseFail false "bad.wasm").2 rfl rfl).2⟩

/-- C8: in every invocation, handles are acquired in dependency order
(parser before parsed module before validator for the validate pipeline;
the VM alone for the instantiate pipeline) and released in exactly the
reverse order of acquisition, on the success path and on every failure
path. -/
theorem handle_lifo_discipline (env : Env) (verbose : Bool) (f : String) :
    (releasedKinds (cmdParse env verbose f).events =
       (acquiredKinds (cmdParse env verbose f).events).reverse ∧
     List.Sublist (acquiredKinds (cmdParse env verbose f).events)
       [HandleKind.parser, HandleKind.astModule]) ∧
    (releasedKinds (cmdValidate env verbose f).events =
       (acquiredKinds (cmdValidate env verbose f).events).reverse ∧
     List.Sublist (acquiredKinds (cmdValidate env verbose f).events)
       [HandleKind.parser, HandleKind.astModule, HandleKind.validator]) ∧
    (releasedKinds (cmdInstantiate env verbose f).events =
       (acquiredKinds (cmdInstantiate env verbose f).events).reverse ∧
     List.Sublist (acquiredKinds (cmdInstantiate env verbose f).events)
       [HandleKind.vm]) := by
  obtain ⟨ver, pc, ⟨pok, pcode, pmsg⟩, ph, vc, ⟨vok, vcode, vmsg⟩, vmc,
          ⟨lok, lcode, lmsg⟩, ⟨vvok, vvcode, vvmsg⟩, ⟨viok, vicode, vimsg⟩, fe⟩ := env
  refine ⟨?_, ?_, ?_⟩
  · cases pc <;> cases pok <;> cases ph <;>
      simp [cmdParse, acquiredKinds, releasedKinds]
  · cases pc <;> cases pok <;> cases ph <;> cases vc <;> cases vok <;>
      simp [cmdValidate, acquiredKinds, releasedKinds]
  · cases vmc <;> cases lok <;> cases vvok <;> cases viok <;>
      simp [cmdInstantiate, acquiredKinds, releasedKinds]

/-- C9: every failure record produced from an engine result whose message
is null renders the fixed placeholder `Unknown error` and still carries all
five fields (stage name, file path, status token, numeric code, message):
stated for the renderer at every command, path and status, and for each of
the six engine-result failure records the commands can emit — `FAILED`
from cmdParse, `FAILED (Parse Error)` and `INVALID` from cmdValidate, and
`FAILED (Load Error)`, `FAILED (Validation Error)`,
`FAILED (Instantiation Error)` from cmdInstantiate. -/
theorem null_message_placeholder (env : Env) (verbose : Bool) (f : String) :
    (∀ cmd status : String, ∀ r : WasmResult, r.message = none →
      printWasmEdgeErrorLines cmd f status r =
        ["[" ++ cmd ++ "]",
         "File   : " ++ f,
         "Status : " ++ status,
         "Error  : [" ++ toString r.code ++ "] " ++ "Unknown error"] ∧
      (printWasmEdgeErrorLines cmd f status r).length = 4) ∧
    (env.parserCreate = true → env.parseResult.ok = false →
     env.parseResult.message = none →
      (cmdParse env verbose f).stderr =
        ["[PARSE]",
         "File   : " ++ f,
         "Status : FAILED",
         "Error  : [" ++ toString env.parseResult.code ++ "] " ++ "Unknown error"] ∧
      (cmdValidate env verbose f).stderr =
        ["[VALIDATE]",
         "File   : " ++ f,
         "Status : FAILED (Parse Error)",
         "Error  : [" ++ toString env.parseResult.code ++ "] " ++ "Unknown error"]) ∧
    (env.parserCreate = true → env.parseResult.ok = true →
     env.validatorCreate = true → env.validateResult.ok = false →
     env.validateResult.message = none →
      (cmdValidate env verbose f).stderr =
        ["[VALIDATE]",
         "File   : " ++ f,
         "Status : INVALID",
         "Error  : [" ++ toString env.validateResult.code ++ "] " ++ "Unknown error"]) ∧
    (env.vmCreate = true → env.vmLoadResult.ok = false →
     env.vmLoadResult.message = none →
      (cmdInstantiate env verbose f).stderr =
        ["[INSTANTIATE]",
         "File   : " ++ f,
         "Status : FAILED (Load Error)",
         "Error  : [" ++ toString env.vmLoadResult.code ++ "] " ++ "Unknown error"]) ∧
    (env.vmCreate = true → env.vmLoadResult.ok = true →
     env.vmValidateResult.ok = false → env.vmValidateResult.message = none →
      (cmdInstantiate env verbose f).stderr =
        ["[INSTANTIATE]",
         "File   : " ++ f,
         "Status : FAILED (Validation Error)",
         "Error  : [" ++ toString env.vmValidateResult.code ++ "] " ++ "Unknown error"]) ∧
    (env.vmCreate = true → env.vmLoadResult.ok = true →
     env.vmValidateResult.ok = true → env.vmInstantiateResult.ok = false →
     env.vmInstantiateResult.message = none →
      (cmdInstantiate env verbose f).stderr =
        ["[INSTANTIATE]",
         "File   : " ++ f,
         "Status : FAILED (Instantiation Error)",
         "Error  : [" ++ toString env.vmInstantiateResult.code ++ "] " ++
           "Unknown error"]) := by
  refine ⟨fun cmd status r hm => ⟨?_, ?_⟩,
          fun hpc hpr hm => ⟨?_, ?_⟩,
          fun hpc hpr hvc hvr hm => ?_,
          fun hvm hld hm => ?_,
          fun hvm hld hvv hm => ?_,
          fun hvm hld hvv hvi hm => ?_⟩
  · simp [printWasmEdgeErrorLines, hm]
  · simp [printWasmEdgeErrorLines]
  · simp [cmdParse, printWasmEdgeErrorLines, hpc, hpr, hm]
  · simp [cmdValidate, printWasmEdgeErrorLines, hpc, hpr, hm]
  · simp [cmdValidate, printWasmEdgeErrorLines, hpc, hpr, hvc, hvr, hm]
  · simp [cmdInstantiate, printWasmEdgeErrorLines, hvm, hld, hm]
  · simp [cmdInstantiate, printWasmEdgeErrorLines, hvm, hld, hvv, hm]
  · simp [cmdInstantiate, printWasmEdgeErrorLines, hvm, hld, hvv, hvi, hm]

/-- C9 witness: the placeholder record at concrete environments exercising
the renderer and each of the six engine-result failure records with a null
message. -/
theorem null_message_placeholder_witness :
    (printWasmEdgeErrorLines "PARSE" "bad.wasm" "FAILED" failResNoMsg =
       ["[" ++ "PARSE" ++ "]",
        "File   : " ++ "bad.wasm",
        "Status : " ++ "FAILED",
        "Error  : [" ++ toString failResNoMsg.code ++ "] " ++ "Unknown error"] ∧
     (printWasmEdgeErrorLines "PARSE" "bad.wasm" "FAILED" failResNoMsg).length = 4) ∧
    ((cmdParse envParseFailNoMsg false "bad.wasm").stderr =
       ["[PARSE]",
        "File   : " ++ "bad.wasm",
        "Status : FAILED",
        "Error  : [" ++ toString envParseFailNoMsg.parseResult.code ++ "] " ++
          "Unknown error"] ∧
     (cmdValidate envParseFailNoMsg false "bad.wasm").stderr =
       ["[VALIDATE]",
        "File   : " ++ "bad.wasm",
        "Status : FAILED (Parse Error)",
        "Error  : [" ++ toString envParseFailNoMsg.parseResult.code ++ "] " ++
          "Unknown error"]) ∧
    (cmdValidate envValidateFailNoMsg false "bad.wasm").stderr =
      ["[VALIDATE]",
       "File   : " ++ "bad.wasm",
       "Status : INVALID",
       "Error  : [" ++ toString envValidateFailNoMsg.validateResult.code ++ "] " ++
         "Unknown error"] ∧
    (cmdInstantiate envLoadFailNoMsg false "bad.wasm").stderr =
      ["[INSTANTIATE]",
       "File   : " ++ "bad.wasm",
       "Status : FAILED (Load Error)",
       "Error  : [" ++ toString envLoadFailNoMsg.vmLoadResult.code ++ "] " ++
         "Unknown error"] ∧
    (cmdInstantiate envVmValidateFailNoMsg false "bad.wasm").stderr =
      ["[INSTANTIATE]",
       "File   : " ++ "bad.wasm",
       "Status : FAILED (Validation Error)",
       "Error  : [" ++ toString envVmValidateFailNoMsg.vmValidateResult.code ++ "] " ++
         "Unknown error"] ∧
    (cmdInstantiate envInstantiateFailNoMsg false "bad.wasm").stderr =
      ["[INSTANTIATE]",
       "File   : " ++ "bad.wasm",
       "Status : FAILED (Instantiation Error)",
       "Error  : [" ++ toString envInstantiateFailNoMsg.vmInstantiateResult.code ++ "] " ++
         "Unknown error"] :=
  ⟨(null_message_placeholder envParseFailNoMsg false "bad.wasm").1
     "PARSE" "FAILED" failResNoMsg rfl,
   (null_message_placeholder envParseFailNoMsg false "bad.wasm").2.1 rfl rfl rfl,
   (null_message_placeholder envValidateFailNoMsg false "bad.wasm").2.2.1
     rfl rfl rfl rfl rfl,
   (null_message_placeholder envLoadFailNoMsg false "bad.wasm").2.2.2.1 rfl rfl rfl,
   (null_message_placeholder envVmValidateFailNoMsg false "bad.wasm").2.2.2.2.1
     rfl rfl rfl rfl,
   (null_message_placeholder envInstantiateFailNoMsg false "bad.wasm").2.2.2.2.2
     rfl rfl rfl rfl rfl⟩

/-- C4 counterexample: with a non-existent input path the program does NOT
pass the path to the engine: `validateFile` rejects it locally, no engine
event occurs, and the exit code is the CLI error code 1 rather than any
engine/runtime outcome. -/
theorem local_file_check_counterexample :
    (mainRun envNoFile ["parse", "missing.wasm"]).exitCode = 1 ∧
    (mainRun envNoFile ["parse", "missing.wasm"]).events = [] ∧
    (mainRun envNoFile ["parse", "missing.wasm"]).stderr =
      ["Error: File not found: missing.wasm"] :=
  ⟨rfl, rfl, by simp [mainRun, mainArgsLoop, dispatchCommand, validateFileRun, envNoFile, envAllOk]⟩

/-- C4 amended: the program checks the path's existence locally before the
pipeline: for any of the three commands, a non-existent path is rejected
with exit code 1 and a local `File not found` error, and no engine
operation or resource event ever happens. -/
theorem local_file_check_rejects_before_engine (env : Env) (cmd f : String)
    (hcmd : cmd = "parse" ∨ cmd = "validate" ∨ cmd = "instantiate")
    (hnf : env.fileExists = false) :
    (mainRun env [cmd, f]).exitCode = 1 ∧
    (mainRun env [cmd, f]).events = [] ∧
    (mainRun env [cmd, f]).stderr = ["Error: File not found: " ++ f] := by
  rcases hcmd with rfl | rfl | rfl <;>
    simp [mainRun, mainArgsLoop, dispatchCommand, validateFileRun, hnf]

/-- C4 amended witness: local rejection of a missing file for the validate
command. -/
theorem local_file_check_rejects_before_engine_witness :
    (mainRun envNoFile ["validate", "x.wasm"]).exitCode = 1 ∧
    (mainRun envNoFile ["validate", "x.wasm"]).events = [] ∧
    (mainRun envNoFile ["validate", "x.wasm"]).stderr =
      ["Error: File not found: " ++ "x.wasm"] :=
  local_file_check_rejects_before_engine envNoFile "validate" "x.wasm"
    (Or.inr (Or.inl rfl)) rfl

/-! Lemmas on verbose-line detection, used for the verbose-mode
noninterference property. -/

/-- Lines produced by `printVerbose` carry the tag. -/
lemma isVerboseLine_tag (m : String) : isVerboseLine ("[VERBOSE] " ++ m) = true := by
  rw [isVerboseLine, String.data_append]
  simp [List.isPrefixOf_iff_prefix]

/-- Stripping removes everything `printVerbose` writes. -/
lemma stripVerbose_verboseLines (v : Bool) (m : String) :
    stripVerbose (printVerboseLines v m) = [] := by
  cases v <;> simp [printVerboseLines, stripVerbose, isVerboseLine_tag]

/-- Stripping distributes over concatenation. -/
lemma stripVerbose_append (a b : List String) :
    stripVerbose (a ++ b) = stripVerbose a ++ stripVerbose b := by
  simp [stripVerbose, List.filter_append]

/-- File lines are not verbose lines. -/
lemma isVerboseLine_file (f : String) : isVerboseLine ("File   : " ++ f) = false := by
  rw [isVerboseLine, String.data_append]
  show (('[' : Char) :: "VERBOSE] ".data).isPrefixOf
    ('F' :: ("ile   : ".data ++ f.data)) = false
  simp [List.isPrefixOf]

/-- Stage headers and success status lines are not verbose lines. -/
lemma isVerboseLine_headers :
    isVerboseLine "[PARSE]" = false ∧ isVerboseLine "[VALIDATE]" = false ∧
    isVerboseLine "[INSTANTIATE]" = false ∧ isVerboseLine "Status : SUCCESS" = false ∧
    isVerboseLine "Status : VALID" = false ∧ isVerboseLine "Status : READY" = false := by
  decide

/-- Success records survive stripping: the parse record. -/
lemma stripVerbose_success_parse (f : String) :
    stripVerbose (printSuccessLines "PARSE" f "SUCCESS") =
      printSuccessLines "PARSE" f "SUCCESS" := by
  simp [printSuccessLines, stripVerbose, List.filter, isVerboseLine_file,
        isVerboseLine_headers.1, isVerboseLine_headers.2.2.2.1]

/-- Success records survive stripping: the validate record. -/
lemma stripVerbose_success_validate (f : String) :
    stripVerbose (printSuccessLines "VALIDATE" f "VALID") =
      printSuccessLines "VALIDATE" f "VALID" := by
  simp [printSuccessLines, stripVerbose, List.filter, isVerboseLine_file,
        isVerboseLine_headers.2.1, isVerboseLine_headers.2.2.2.2.1]

/-- Success records survive stripping: the instantiate record. -/
lemma stripVerbose_success_instantiate (f : String) :
    stripVerbose (printSuccessLines "INSTANTIATE" f "READY") =
      printSuccessLines "INSTANTIATE" f "READY" := by
  simp [printSuccessLines, stripVerbose, List.filter, isVerboseLine_file,
        isVerboseLine_headers.2.2.1, isVerboseLine_headers.2.2.2.2.2]

/-- Verbose-independence of the parse pipeline: same exit code, same
standard error, same non-verbose standard output. -/
lemma cmdParse_verbose_indep (env : Env) (f : String) :
    (cmdParse env true f).exitCode = (cmdParse env false f).exitCode ∧
    (cmdParse env true f).stderr = (cmdParse env false f).stderr ∧
    stripVerbose (cmdParse env true f).stdout =
      stripVerbose (cmdParse env false f).stdout := by
  obtain ⟨ver, pc, ⟨pok, pcode, pmsg⟩, ph, vc, vr, vmc, lr, vvr, vir, fe⟩ := env
  cases pc <;> cases pok <;>
    simp [cmdParse, stripVerbose_append, stripVerbose_verboseLines,
          stripVerbose_success_parse]

/-- Verbose-independence of the validate pipeline. -/
lemma cmdValidate_verbose_indep (env : Env) (f : String) :
    (cmdValidate env true f).exitCode = (cmdValidate env false f).exitCode ∧
    (cmdValidate env true f).stderr = (cmdValidate env false f).stderr ∧
    stripVerbose (cmdValidate env true f).stdout =
      stripVerbose (cmdValidate env false f).stdout := by
  obtain ⟨ver, pc, ⟨pok, pcode, pmsg⟩, ph, vc, ⟨vok, vcode, vmsg⟩, vmc, lr, vvr, vir, fe⟩ := env
  cases pc <;> cases pok <;> cases vc <;> cases vok <;>
    simp [cmdValidate, stripVerbose_append, stripVerbose_verboseLines,
          stripVerbose_success_validate]

/-- Verbose-independence of the instantiate pipeline. -/
lemma cmdInstantiate_verbose_indep (env : Env) (f : String) :
    (cmdInstantiate env true f).exitCode = (cmdInstantiate env false f).exitCode ∧
    (cmdInstantiate env true f).stderr = (cmdInstantiate env false f).stderr ∧
    stripVerbose (cmdInstantiate env true f).stdout =
      stripVerbose (cmdInstantiate env false f).stdout := by
  obtain ⟨ver, pc, pr, ph, vc, vr, vmc, ⟨lok, lcode, lmsg⟩,
          ⟨vvok, vvcode, vvmsg⟩, ⟨viok, vicode, vimsg⟩, fe⟩ := env
  cases vmc <;> cases lok <;> cases vvok <;> cases viok <;>
    simp [cmdInstantiate, stripVerbose_append, stripVerbose_verboseLines,
          stripVerbose_success_instantiate]

/-- Verbose-independence of the command dispatch. -/
lemma dispatchCommand_verbose_indep (env : Env) (cmd : String) (rest : List String) :
    (dispatchCommand env true cmd rest).exitCode =
      (dispatchCommand env false cmd rest).exitCode ∧
    (dispatchCommand env true cmd rest).stderr =
      (dispatchCommand env false cmd rest).stderr ∧
    stripVerbose (dispatchCommand env true cmd rest).stdout =
      stripVerbose (dispatchCommand env false cmd rest).stdout := by
  by_cases hu : (cmd != "parse" && cmd != "validate" && cmd != "instantiate") = true
  · simp [dispatchCommand, hu]
  · rcases rest with _ | ⟨f, rest2⟩
    · simp [dispatchCommand, hu]
    · by_cases hex : (validateFileRun env f).1 = false
      · simp [dispatchCommand, hu, hex]
      · by_cases hp : (cmd == "parse") = true
        · have h := cmdParse_verbose_indep env f
          simp [dispatchCommand, hu, hex, hp, stripVerbose_append,
                stripVerbose_verboseLines, h.1, h.2.1, h.2.2]
        · by_cases hv : (cmd == "validate") = true
          · have h := cmdValidate_verbose_indep env f
            simp [dispatchCommand, hu, hex, hp, hv, stripVerbose_append,
                  stripVerbose_verboseLines, h.1, h.2.1, h.2.2]
          · have h := cmdInstantiate_verbose_indep env f
            simp [dispatchCommand, hu, hex, hp, hv, stripVerbose_append,
                  stripVerbose_verboseLines, h.1, h.2.1, h.2.2]

/-- Verbose-independence of the whole argument loop. -/
lemma mainArgsLoop_verbose_indep (env : Env) (args : List String) :
    (mainArgsLoop env true args).exitCode = (mainArgsLoop env false args).exitCode ∧
    (mainArgsLoop env true args).stderr = (mainArgsLoop env false args).stderr ∧
    stripVerbose (mainArgsLoop env true args).stdout =
      stripVerbose (mainArgsLoop env false args).stdout := by
  cases args with
  | nil => exact ⟨rfl, rfl, rfl⟩
  | cons arg rest =>
    by_cases h1 : (arg == "-h" || arg == "--help") = true
    · simp [mainArgsLoop, h1]
    · by_cases h2 : (arg == "-v" || arg == "--version") = true
      · simp [mainArgsLoop, h1, h2]
      · by_cases h3 : (arg == "--verbose") = true
        · simp [mainArgsLoop, h1, h2, h3]
        · simpa [mainArgsLoop, h1, h2, h3] using
            dispatchCommand_verbose_indep env arg rest

/-- C10: on the same input, the exit code and the entire standard-error
output are identical with and without the `--verbose` flag, and the
standard outputs agree once the `[VERBOSE]`-tagged lines are removed: the
flag only adds tagged diagnostic lines and never changes the outcome. -/
theorem verbose_flag_noninterference (env : Env) (args : List String) :
    (mainRun env ("--verbose" :: args)).exitCode = (mainRun env args).exitCode ∧
    (mainRun env ("--verbose" :: args)).stderr = (mainRun env args).stderr ∧
    stripVerbose (mainRun env ("--verbose" :: args)).stdout =
      stripVerbose (mainRun env args).stdout := by
  have h : mainRun env ("--verbose" :: args) = mainArgsLoop env true args := rfl
  rw [h]
  exact mainArgsLoop_verbose_indep env args

end WasmMini
